import Mathlib

/-!
Shallow embedding of the bugsink repository excerpt:
  * src/issues/models.py        (Issue, IssueStateManager, IssueQuerysetStateManager)
  * src/bugsink/timed_sqlite_backend/base.py  (limit_runtime, SQLiteCursorWrapper)
  * src/projects/forms.py       (ProjectMemberInviteForm, ProjectForm)

Conventions of the embedding:
  * database timestamps are abstract instants (`DateTime := Int`); the calendar
    arithmetic done by `dateutil.relativedelta` is an external library and enters
    as a parameter (`Env.relAdd`);
  * the process-global registry (`bugsink/registry.py`, not part of the excerpt)
    is modelled from the spec as a map from issue id to the list of registered
    event listeners; evaluating a volume-based condition against the rolling
    event counts is abstract (`Env.evalCond`);
  * Python exceptions become an `Option Err` component of each operation's
    result; mutations performed before a raise are kept, as in Python;
  * a Django queryset is modelled as the list of issue ids it selects, read
    against the current database state at each use (lazy, uncached querysets,
    which is how the managers use them: none of the querysets involved is
    evaluated before the bulk `.update` calls run).
-/

/-- Abstract instant in time (the embedding never needs calendar structure). -/
abbrev DateTime := Int

/-- Modelled from the spec: `bugsink.volume_based_condition.VolumeBasedCondition`
(module not in the excerpt): an event-volume condition over a rolling window,
with a period name, a number of periods and a volume threshold, as used by
`IssueStateManager.set_unmute_handlers`. -/
structure VolumeBasedCondition where
  period : String
  nr_of_periods : Int
  volume : Int
deriving DecidableEq, Repr

/-- Modelled from the spec: the purpose tag `bugsink.registry.UNMUTE_PURPOSE`
under which unmute listeners are registered (the registry module is not in the
excerpt). -/
def UNMUTE_PURPOSE : String := "unmute"

/-- Modelled from the spec: an event listener registered in the per-issue
registry entry by `add_event_listener(period_name, nr_of_periods,
gte_threshold, when_becomes_true, tup, purpose)`.  The `when_becomes_true`
callback produced by `create_unmute_issue_handler(issue.id)` is represented by
the id of the issue it unmutes. -/
structure Listener where
  period_name : String
  nr_of_periods : Int
  gte_threshold : Int
  handler_issue_id : Nat
  purpose : String
deriving DecidableEq, Repr

/-- The registry's `by_issue` mapping: issue id to its registered listeners.
Modelled from the spec: the "denormalized policy registry" keeps, per issue,
the listeners added by `add_event_listener` until `remove_event_listener`
drops those with a given purpose. -/
abbrev Registry := Nat → List Listener

/-- Pointwise update of one issue's registry entry. -/
def updateReg (reg : Registry) (i : Nat) (f : List Listener → List Listener) : Registry :=
  fun j => if j = i then f (reg j) else reg j

/-- External collaborators of issues/models.py, passed in rather than stubbed:
`parseVBCs` is `json.loads` + `VolumeBasedCondition.from_dict` on the stored
condition string; `evalCond issueId vbc now` is the `initial_state` the
registry's `add_event_listener` reports for a condition against the issue's
rolling event counts at time `now`; `relAdd kwarg n dt` is
`dt + relativedelta(**{kwarg: n})` from dateutil. -/
structure Env where
  parseVBCs : String → List VolumeBasedCondition
  evalCond : Nat → VolumeBasedCondition → DateTime → Bool
  relAdd : String → Int → DateTime → DateTime

/-- The persisted fields of `issues.models.Issue` that the state managers
touch, plus the project's `alert_on_unmute` flag read by `unmute`. -/
structure Issue where
  id : Nat
  is_resolved : Bool
  is_resolved_by_next_release : Bool
  fixed_at : String
  is_muted : Bool
  unmute_on_volume_based_conditions : String
  unmute_after : Option DateTime
  alert_on_unmute : Bool
deriving DecidableEq, Repr

/-- Split a character list on newlines (chunks between newline characters,
with an empty final chunk after a trailing newline). -/
def splitNl : List Char → List (List Char)
  | [] => [[]]
  | c :: cs =>
    let r := splitNl cs
    if c = '\n' then [] :: r
    else (c :: r.headD []) :: r.tail

/-- Modelled from the spec: `issues.utils.parse_lines` (module not in the
excerpt): split a line-separated TextField into its lines; the serialization
keeps a trailing newline per line, so the final empty chunk is dropped, and
the empty string parses to no lines. -/
def parse_lines (s : String) : List String :=
  ((splitNl s.data).map (fun l => String.mk l)).dropLast

/-- Modelled from the spec: `issues.utils.serialize_lines` (module not in the
excerpt): each line followed by a newline, concatenated. -/
def serialize_lines (lines : List String) : String :=
  String.join (lines.map (fun l => l ++ "\n"))

/-- `Issue.add_fixed_at`: append `release_version` to the `fixed_at` list if
not already present. -/
def add_fixed_at (issue : Issue) (release_version : String) : Issue :=
  let fixed := parse_lines issue.fixed_at
  if release_version ∈ fixed then issue
  else { issue with fixed_at := serialize_lines (fixed ++ [release_version]) }

/-- Python exceptions raised by the state managers. -/
inductive Err where
  | incongruentState
  | unmuteConditionAlreadyTrue
  | keyError
  | notImplemented
  | doesNotExist
deriving DecidableEq, Repr

/-- The state a single-issue operation acts on: the in-memory issue, the
process-global registry and the unmute alerts sent so far (by issue id). -/
structure State where
  issue : Issue
  registry : Registry
  alerts : List Nat

/-- `add_periods_to_datetime(dt, nr_of_periods, period_name)`: look the period
name up in `dateutil_kwargs_map` (a `KeyError`, i.e. `none`, for any other
name) and apply dateutil's relativedelta. -/
def dateutil_kwargs_map (period_name : String) : Option String :=
  if period_name = "year" then some "years"
  else if period_name = "month" then some "months"
  else if period_name = "week" then some "weeks"
  else if period_name = "day" then some "days"
  else if period_name = "hour" then some "hours"
  else if period_name = "minute" then some "minutes"
  else none

def add_periods_to_datetime (env : Env) (dt : DateTime) (nr_of_periods : Int)
    (period_name : String) : Option DateTime :=
  (dateutil_kwargs_map period_name).map (fun kwarg => env.relAdd kwarg nr_of_periods dt)

/-- The listener that `set_unmute_handlers` registers for one parsed
volume-based condition of issue `iid`. -/
def mkListener (iid : Nat) (vbc : VolumeBasedCondition) : Listener :=
  { period_name := vbc.period
    nr_of_periods := vbc.nr_of_periods
    gte_threshold := vbc.volume
    handler_issue_id := iid
    purpose := UNMUTE_PURPOSE }

/-- The loop body of `IssueStateManager.set_unmute_handlers`: add one listener
per condition, left to right; if a listener's `initial_state` is already true
the loop raises ("The unmute condition is already true"), keeping the
listeners added so far (the raising one included, since `add_event_listener`
registers before reporting the initial state). -/
def addHandlers (env : Env) (iid : Nat) (now : DateTime) :
    List VolumeBasedCondition → List Listener × Option Err
  | [] => ([], none)
  | vbc :: rest =>
    let l := mkListener iid vbc
    if env.evalCond iid vbc now then
      ([l], some Err.unmuteConditionAlreadyTrue)
    else
      let r := addHandlers env iid now rest
      (l :: r.1, r.2)

/-- `IssueStateManager.set_unmute_handlers(by_issue, issue, now)`: parse the
issue's stored condition string and register the listeners in the issue's
registry entry. -/
def ISM_set_unmute_handlers (env : Env) (reg : Registry) (issue : Issue)
    (now : DateTime) : Registry × Option Err :=
  let r := addHandlers env issue.id now (env.parseVBCs issue.unmute_on_volume_based_conditions)
  (updateReg reg issue.id (fun ls => ls ++ r.1), r.2)

/-- `IssueStateManager.unmute(issue, triggered_by_event)`: only acts when the
issue is muted; resets the three mute fields, removes the UNMUTE_PURPOSE
listeners from the registry, and (when triggered by an event and the project
has `alert_on_unmute`) sends one unmute alert. -/
def ISM_unmute (triggered_by_event : Bool) (st : State) : State :=
  if st.issue.is_muted then
    let issue1 := { st.issue with
      is_muted := false
      unmute_on_volume_based_conditions := "[]"
      unmute_after := none }
    let reg1 := updateReg st.registry st.issue.id
      (fun ls => ls.filter (fun l => l.purpose ≠ UNMUTE_PURPOSE))
    let alerts1 :=
      if triggered_by_event ∧ st.issue.alert_on_unmute then st.alerts ++ [st.issue.id]
      else st.alerts
    { issue := issue1, registry := reg1, alerts := alerts1 }
  else st

/-- `IssueStateManager.resolve(issue)`: mark resolved, record the empty
release in `fixed_at`, then unmute. -/
def ISM_resolve (st : State) : State :=
  let issue1 := { st.issue with is_resolved := true }
  let issue2 := add_fixed_at issue1 ""
  ISM_unmute false { st with issue := issue2 }

/-- `IssueStateManager.resolve_by_latest(issue)`: mark resolved, record the
project's latest release (passed in, as `project.get_latest_release()` is an
external collaborator), then unmute. -/
def ISM_resolve_by_latest (latest_release : String) (st : State) : State :=
  let issue1 := { st.issue with is_resolved := true }
  let issue2 := add_fixed_at issue1 latest_release
  ISM_unmute false { st with issue := issue2 }

/-- `IssueStateManager.resolve_by_release(issue, release_version)`. -/
def ISM_resolve_by_release (release_version : String) (st : State) : State :=
  let issue1 := { st.issue with is_resolved := true }
  let issue2 := add_fixed_at issue1 release_version
  ISM_unmute false { st with issue := issue2 }

/-- `IssueStateManager.resolve_by_next(issue)`. -/
def ISM_resolve_by_next (st : State) : State :=
  let issue1 := { st.issue with is_resolved := true, is_resolved_by_next_release := true }
  ISM_unmute false { st with issue := issue1 }

/-- `IssueStateManager.reopen(issue)`. -/
def ISM_reopen (st : State) : State :=
  let issue1 := { st.issue with is_resolved := false, is_resolved_by_next_release := false }
  ISM_unmute false { st with issue := issue1 }

/-- `IssueStateManager.mute(issue, unmute_on_volume_based_conditions,
unmute_after_tuple)`: raise `IncongruentStateException` on a resolved issue;
otherwise set the mute fields, register the unmute handlers (which may raise,
keeping the mutations made so far), and when the tuple carries both a period
count and a period name set `unmute_after` accordingly (an unknown period name
is a `KeyError`). -/
def ISM_mute (env : Env) (now : DateTime) (conds : String)
    (unmute_after_tuple : Option Int × Option String) (st : State) : State × Option Err :=
  if st.issue.is_resolved then (st, some Err.incongruentState)
  else
    let issue1 := { st.issue with
      is_muted := true
      unmute_on_volume_based_conditions := conds }
    let r := ISM_set_unmute_handlers env st.registry issue1 now
    let st1 : State := { issue := issue1, registry := r.1, alerts := st.alerts }
    match r.2 with
    | some e => (st1, some e)
    | none =>
      match unmute_after_tuple with
      | (some n, some p) =>
        match add_periods_to_datetime env now n p with
        | some dt => ({ st1 with issue := { issue1 with unmute_after := some dt } }, none)
        | none => (st1, some Err.keyError)
      | _ => (st1, none)

/-- The database: the issue rows. -/
structure DB where
  issues : List Issue
deriving DecidableEq, Repr

/-- The state a queryset operation acts on: the database, the process-global
registry and the unmute alerts sent so far. -/
structure QState where
  db : DB
  registry : Registry
  alerts : List Nat

/-- A queryset over issues: the ids it selects; rows are read against the
current database at each use (the managers only use lazy, not-yet-evaluated
querysets). -/
abbrev Queryset := List Nat

/-- The rows a queryset yields when iterated against a database. -/
def qs_rows (db : DB) (qs : Queryset) : List Issue :=
  db.issues.filter (fun i => i.id ∈ qs)

/-- `issue_qs.update(...)`: apply a field update to every selected row. -/
def qs_update (db : DB) (qs : Queryset) (f : Issue → Issue) : DB :=
  { issues := db.issues.map (fun i => if i.id ∈ qs then f i else i) }

/-- Modelled from the spec: `issues.utils.filter_qs_for_fixed_at` (module not
in the excerpt): restrict a queryset to issues whose `fixed_at` lines contain
the release version, read against the current database. -/
def filter_qs_for_fixed_at (db : DB) (qs : Queryset) (release_version : String) : Queryset :=
  qs.filter (fun iid =>
    (db.issues.find? (fun i => i.id = iid)).elim false
      (fun i => release_version ∈ parse_lines i.fixed_at))

/-- Modelled from the spec: `issues.utils.exclude_qs_for_fixed_at` (module not
in the excerpt): the complement of `filter_qs_for_fixed_at` within the
queryset. -/
def exclude_qs_for_fixed_at (db : DB) (qs : Queryset) (release_version : String) : Queryset :=
  qs.filter (fun iid =>
    (db.issues.find? (fun i => i.id = iid)).elim false
      (fun i => release_version ∉ parse_lines i.fixed_at))

/-- `IssueQuerysetStateManager._resolve_at(issue_qs, release_version)`: three
sequential bulk updates, each one's queryset evaluated against the database it
runs on: (1) rows already fixed at `release_version` get `is_resolved`;
(2) rows whose `fixed_at` does not contain the empty release get `is_resolved`
and the release line appended; (3) every row gets the release line appended
once more. -/
def IQSM_resolve_at (qst : QState) (qs : Queryset) (release_version : String) : QState :=
  let db1 := qs_update qst.db (filter_qs_for_fixed_at qst.db qs release_version)
    (fun i => { i with is_resolved := true })
  let db2 := qs_update db1 (exclude_qs_for_fixed_at db1 qs "")
    (fun i => { i with
      is_resolved := true
      fixed_at := i.fixed_at ++ release_version ++ "\n" })
  let db3 := qs_update db2 qs
    (fun i => { i with fixed_at := i.fixed_at ++ release_version ++ "\n" })
  { qst with db := db3 }

/-- `IssueQuerysetStateManager.unmute(issue_qs, triggered_by_event)`: one bulk
update resetting the three mute fields, then a loop over the queryset (which
now reads the updated rows) applying the single-issue `unmute` to each row
without saving it. -/
def IQSM_unmute (triggered_by_event : Bool) (qst : QState) (qs : Queryset) : QState :=
  let db1 := qs_update qst.db qs (fun i => { i with
    is_muted := false
    unmute_on_volume_based_conditions := "[]"
    unmute_after := none })
  (qs_rows db1 qs).foldl
    (fun acc row =>
      let st1 := ISM_unmute triggered_by_event
        { issue := row, registry := acc.registry, alerts := acc.alerts }
      { db := acc.db, registry := st1.registry, alerts := st1.alerts })
    { db := db1, registry := qst.registry, alerts := qst.alerts }

/-- `IssueQuerysetStateManager.resolve(issue_qs)`. -/
def IQSM_resolve (qst : QState) (qs : Queryset) : QState :=
  IQSM_unmute false (IQSM_resolve_at qst qs "") qs

/-- `IssueQuerysetStateManager.resolve_by_latest(issue_qs)`: raises
`NotImplementedError` before touching anything. -/
def IQSM_resolve_by_latest (qst : QState) : QState × Option Err :=
  (qst, some Err.notImplemented)

/-- `IssueQuerysetStateManager.resolve_by_release(issue_qs, release_version)`. -/
def IQSM_resolve_by_release (qst : QState) (qs : Queryset) (release_version : String) : QState :=
  IQSM_unmute false (IQSM_resolve_at qst qs release_version) qs

/-- `IssueQuerysetStateManager.resolve_by_next(issue_qs)`. -/
def IQSM_resolve_by_next (qst : QState) (qs : Queryset) : QState :=
  let db1 := qs_update qst.db qs (fun i => { i with
    is_resolved := true
    is_resolved_by_next_release := true })
  IQSM_unmute false { qst with db := db1 } qs

/-- `IssueQuerysetStateManager.reopen(issue_qs)`: raises
`NotImplementedError` before touching anything. -/
def IQSM_reopen (qst : QState) : QState × Option Err :=
  (qst, some Err.notImplemented)

/-- `IssueQuerysetStateManager.set_unmute_handlers(by_issue, issue_qs, now)`:
loop over the queryset's rows registering each row's handlers; a raise inside
one row's registration propagates, keeping the registrations made so far. -/
def IQSM_set_unmute_handlers (env : Env) (now : DateTime) (reg : Registry) :
    List Issue → Registry × Option Err
  | [] => (reg, none)
  | row :: rest =>
    let r := ISM_set_unmute_handlers env reg row now
    match r.2 with
    | some e => (r.1, some e)
    | none => IQSM_set_unmute_handlers env now r.1 rest

/-- `IssueQuerysetStateManager.mute(issue_qs, unmute_on_volume_based_conditions,
unmute_after_tuple)`: raise `IncongruentStateException` when any selected row
is resolved; otherwise bulk-update the mute fields, register the handlers by
looping over the (now updated) rows, and when the tuple carries both
components bulk-update `unmute_after` (an unknown period name is a `KeyError`
raised while computing the value, before the update runs). -/
def IQSM_mute (env : Env) (now : DateTime) (conds : String)
    (unmute_after_tuple : Option Int × Option String) (qst : QState) (qs : Queryset) :
    QState × Option Err :=
  if (qs_rows qst.db qs).any (fun i => i.is_resolved) then
    (qst, some Err.incongruentState)
  else
    let db1 := qs_update qst.db qs (fun i => { i with
      is_muted := true
      unmute_on_volume_based_conditions := conds })
    let r := IQSM_set_unmute_handlers env now qst.registry (qs_rows db1 qs)
    let qst1 : QState := { db := db1, registry := r.1, alerts := qst.alerts }
    match r.2 with
    | some e => (qst1, some e)
    | none =>
      match unmute_after_tuple with
      | (some n, some p) =>
        match add_periods_to_datetime env now n p with
        | some dt =>
          ({ qst1 with db := qs_update db1 qs (fun i => { i with unmute_after := some dt }) },
            none)
        | none => (qst1, some Err.keyError)
      | _ => (qst1, none)

/-- `create_unmute_issue_handler(issue_id)`: the callback fetches the issue by
id (`DoesNotExist` when absent), unmutes it as triggered-by-event, and saves
it (replacing the row in the database). -/
def unmute_issue_handler (iid : Nat) (qst : QState) : QState × Option Err :=
  match qst.db.issues.find? (fun i => i.id = iid) with
  | none => (qst, some Err.doesNotExist)
  | some row =>
    let st1 := ISM_unmute true { issue := row, registry := qst.registry, alerts := qst.alerts }
    let db1 : DB :=
      { issues := qst.db.issues.map (fun i => if i.id = st1.issue.id then st1.issue else i) }
    ({ db := db1, registry := st1.registry, alerts := st1.alerts }, none)

/-- Wall-clock instants read by `time.time()`, as rationals. -/
abbrev Time := ℚ

/-- The one piece of sqlite connection state the patched backend manipulates:
the progress handler (a callback invoked periodically during a query; a
non-zero return value aborts the query), or `none` when cleared. -/
structure Conn where
  progressHandler : Option (Time → Option Int)

/-- `conn.set_progress_handler(h, n)` (the instruction count `n` does not
affect which queries get aborted, only how often the callback runs, so it is
not part of the model). -/
def set_progress_handler (conn : Conn) (h : Option (Time → Option Int)) : Conn :=
  { conn with progressHandler := h }

/-- The `check_time` closure of `limit_runtime`: return 1 (abort) once the
current reading of the clock exceeds `start + seconds`, `None` otherwise. -/
def check_time (start seconds : Time) : Time → Option Int :=
  fun t => if start + seconds < t then some 1 else none

/-- `limit_runtime(conn, seconds)` as used around a body: install the
`check_time` progress handler, run the body, and clear the handler afterwards.
The generator has no try/finally around its `yield`, so when the body raises,
the exception propagates out of the context manager and the clearing line is
never reached: the handler stays installed. -/
def limit_runtime {α : Type} (conn : Conn) (start seconds : Time)
    (body : Conn → Except Unit α) : Except Unit α × Conn :=
  let conn1 := set_progress_handler conn (some (check_time start seconds))
  match body conn1 with
  | Except.ok a => (Except.ok a, set_progress_handler conn1 none)
  | Except.error e => (Except.error e, conn1)

/-- `SQLiteCursorWrapper.execute(query, params)`: run the underlying execute
(the body, abstracting `super().execute`) under a 5-second runtime limit
starting at the current clock reading. -/
def SQLiteCursorWrapper_execute {α : Type} (conn : Conn) (start : Time)
    (body : Conn → Except Unit α) : Except Unit α × Conn :=
  limit_runtime conn start 5 body

/-- `SQLiteCursorWrapper.executemany(query, param_list)`: same wrapping around
the underlying executemany. -/
def SQLiteCursorWrapper_executemany {α : Type} (conn : Conn) (start : Time)
    (body : Conn → Except Unit α) : Except Unit α × Conn :=
  limit_runtime conn start 5 body

/-- `ProjectMemberInviteForm.clean_email`: with the known user email
addresses standing in for `User.objects`, raise a ValidationError exactly
when the form requires existing users and none has the submitted address;
otherwise return the address unchanged. -/
def ProjectMemberInviteForm_clean_email (user_must_exist : Bool)
    (user_emails : List String) (email : String) : Except Unit String :=
  if user_must_exist ∧ email ∉ user_emails then Except.error ()
  else Except.ok email

/-- The model instance a `ProjectForm` is bound to: its primary key (when
saved) and its DSN. -/
structure ProjectInstance where
  pk : Option Nat
  dsn : String
deriving DecidableEq, Repr

/-- The form state `ProjectForm.__init__` configures: which of the team/dsn
fields are present, the dsn field's attributes, and the team field's
queryset. -/
structure ProjectFormState where
  has_team_field : Bool
  has_dsn_field : Bool
  dsn_disabled : Bool
  dsn_initial : Option String
  dsn_label : String
  dsn_help_text : String
  team_queryset : Option (List Nat)
deriving DecidableEq, Repr

/-- The form as the class body declares it, before `__init__` runs: the Meta
fields (among them `team`) plus the declared `dsn = CharField(label="DSN",
disabled=True)`. -/
def ProjectForm_base : ProjectFormState :=
  { has_team_field := true
    has_dsn_field := true
    dsn_disabled := true
    dsn_initial := none
    dsn_label := "DSN"
    dsn_help_text := ""
    team_queryset := none }

/-- `ProjectForm.__init__(..., team_qs=...)`: editing an existing project
(an instance with a primary key) drops the team field and fills in the
read-only dsn field; creating drops the dsn field and points the team field
at `team_qs`.  `reverseUrl` stands for Django's `reverse('project_sdk_setup',
...)`. -/
def ProjectForm_init (reverseUrl : Nat → String) (team_qs : Option (List Nat))
    (inst : Option ProjectInstance) : ProjectFormState :=
  match inst with
  | some i =>
    match i.pk with
    | some pkv =>
      { ProjectForm_base with
        has_team_field := false
        dsn_initial := some i.dsn
        dsn_label := "DSN (read-only)"
        dsn_help_text := "Use the DSN to <a href=\"" ++ reverseUrl pkv
          ++ "\" class=\"text-cyan-800 font-bold\">set up the SDK</a>." }
    | none =>
      { ProjectForm_base with team_queryset := team_qs, has_dsn_field := false }
  | none =>
    { ProjectForm_base with team_queryset := team_qs, has_dsn_field := false }

/-- A fresh issue: open, unmuted, no fixed-at history. -/
def freshIssue : Issue :=
  { id := 0
    is_resolved := false
    is_resolved_by_next_release := false
    fixed_at := ""
    is_muted := false
    unmute_on_volume_based_conditions := "[]"
    unmute_after := none
    alert_on_unmute := false }

/-- An issue that was resolved without release info and later reopened: open,
unmuted, with the empty release in its fixed-at history. -/
def reopenedIssue : Issue :=
  { freshIssue with fixed_at := "\n" }

/-- A resolved issue. -/
def resolvedIssue : Issue :=
  { freshIssue with is_resolved := true }

/-- A sample volume-based condition: 10 events within 1 day. -/
def vbc0 : VolumeBasedCondition :=
  { period := "day", nr_of_periods := 1, volume := 10 }

/-- A sample muted issue (id 1) whose stored condition string is "[c]". -/
def mutedIssue : Issue :=
  { freshIssue with
    id := 1
    is_muted := true
    unmute_on_volume_based_conditions := "[c]" }

/-- The empty registry. -/
def reg0 : Registry := fun _ => []

/-- The registry state after `mutedIssue` was muted: its one condition has a
registered UNMUTE_PURPOSE listener. -/
def regWithListener : Registry :=
  fun j => if j = 1 then [mkListener 1 vbc0] else []

/-- A sample environment: the condition string "[c]" parses to the one sample
condition, every condition currently evaluates to false, and relativedelta
acts as plain addition. -/
def envFalse : Env :=
  { parseVBCs := fun s => if s = "[c]" then [vbc0] else []
    evalCond := fun _ _ _ => false
    relAdd := fun _ n d => d + n }

/-- The same environment at a moment where every condition evaluates true. -/
def envTrue : Env :=
  { envFalse with evalCond := fun _ _ _ => true }

/-- A one-row database state holding the given issue, with the empty
registry. -/
def qstOf (i : Issue) : QState :=
  { db := { issues := [i] }, registry := reg0, alerts := [] }

/-- The state after `mutedIssue` was muted: it is the one row, and its
condition's listener is registered. -/
def qstMuted : QState :=
  { db := { issues := [mutedIssue] }, registry := regWithListener, alerts := [] }

/-- A single-issue state over the empty registry. -/
def stOf (i : Issue) : State :=
  { issue := i, registry := reg0, alerts := [] }

/-- Assemble a single-issue state. -/
def mkState (i : Issue) (reg : Registry) (al : List Nat) : State :=
  { issue := i, registry := reg, alerts := al }

/-- The state predicate of C5: an issue is never both resolved and muted. -/
def issueStateOk (i : Issue) : Bool :=
  !(i.is_resolved && i.is_muted)

/-- The operations of `IssueStateManager`, with their arguments
(`resolve_by_latest` carries the project's latest release version, an
external collaborator). -/
inductive SOp where
  | resolve
  | resolve_by_latest (latest_release : String)
  | resolve_by_release (release_version : String)
  | resolve_by_next
  | reopen
  | mute (conds : String) (tup : Option Int × Option String)
  | unmute (triggered_by_event : Bool)

/-- Dispatch a single-issue operation; operations that cannot raise report no
error. -/
def applySOp (env : Env) (now : DateTime) : SOp → State → State × Option Err
  | SOp.resolve, st => (ISM_resolve st, none)
  | SOp.resolve_by_latest v, st => (ISM_resolve_by_latest v st, none)
  | SOp.resolve_by_release v, st => (ISM_resolve_by_release v st, none)
  | SOp.resolve_by_next, st => (ISM_resolve_by_next st, none)
  | SOp.reopen, st => (ISM_reopen st, none)
  | SOp.mute c t, st => ISM_mute env now c t st
  | SOp.unmute b, st => (ISM_unmute b st, none)

/-- The operations of `IssueQuerysetStateManager`, with their arguments. -/
inductive QOp where
  | resolve
  | resolve_by_latest
  | resolve_by_release (release_version : String)
  | resolve_by_next
  | reopen
  | mute (conds : String) (tup : Option Int × Option String)
  | unmute (triggered_by_event : Bool)

/-- Dispatch a queryset operation. -/
def applyQOp (env : Env) (now : DateTime) : QOp → QState → Queryset → QState × Option Err
  | QOp.resolve, qst, qs => (IQSM_resolve qst qs, none)
  | QOp.resolve_by_latest, qst, _ => IQSM_resolve_by_latest qst
  | QOp.resolve_by_release v, qst, qs => (IQSM_resolve_by_release qst qs v, none)
  | QOp.resolve_by_next, qst, qs => (IQSM_resolve_by_next qst qs, none)
  | QOp.reopen, qst, _ => IQSM_reopen qst
  | QOp.mute c t, qst, qs => IQSM_mute env now c t qst qs
  | QOp.unmute b, qst, qs => (IQSM_unmute b qst qs, none)

/-- C1: `IssueQuerysetStateManager` applied to a one-issue queryset is claimed
to leave the persisted fields equal to `IssueStateManager` on that issue.  On
a fresh issue, single-issue `resolve` records the empty release once
(`fixed_at = "\n"`) while the queryset `resolve` records it twice
(`fixed_at = "\n\n"`): `_resolve_at` appends the release line both in its
exclude-update and in its unconditional third update.  Moreover, on a
reopened issue (empty release present in `fixed_at`), the queryset
`resolve_by_release "1.0"` fails to set `is_resolved` at all, while the
single-issue version sets it. -/
theorem C1_resolve_fixed_at_divergence :
    (ISM_resolve (stOf freshIssue)).issue.fixed_at = "\n"
    ∧ ((IQSM_resolve (qstOf freshIssue) [0]).db.issues.map (fun i => i.fixed_at)) = ["\n\n"]
    ∧ (ISM_resolve_by_release "1.0" (stOf reopenedIssue)).issue.is_resolved = true
    ∧ ((IQSM_resolve_by_release (qstOf reopenedIssue) [0] "1.0").db.issues.map
        (fun i => i.is_resolved)) = [false] := by
  refine ⟨rfl, ?_, rfl, ?_⟩ <;> decide

/-- C2: the claimed invariant — after every completed manager operation the
UNMUTE_PURPOSE listeners match `unmute_on_volume_based_conditions`, and an
unmuted issue has no such listener — fails after a completed
`IssueQuerysetStateManager.unmute`: the bulk update runs before the loop over
the queryset, so the loop reads rows that are already unmuted and never calls
`remove_event_listener`; the listener registered at mute time survives while
the issue's fields say unmuted with no conditions. -/
theorem C2_qs_unmute_leaves_stale_listener :
    ((IQSM_unmute false qstMuted [1]).db.issues.map
      (fun i => (i.is_muted, i.unmute_on_volume_based_conditions, i.unmute_after)))
      = [(false, "[]", none)]
    ∧ (IQSM_unmute false qstMuted [1]).registry 1 = [mkListener 1 vbc0] := by
  exact ⟨by decide, rfl⟩

/-- C4 (counterexample): a `mute` call that raises because a supplied
volume-based condition is already true is claimed to leave persisted fields
and registry unchanged; but the queryset `mute` persists the muted state with
its bulk update before registering handlers, so after the failed call the one
issue's persisted fields read muted with the new condition string, and its
registry entry gained a listener. -/
theorem C4_mute_raise_not_atomic :
    ((IQSM_mute envTrue 0 "[c]" (none, none) (qstOf freshIssue) [0]).2
      = some Err.unmuteConditionAlreadyTrue)
    ∧ ((IQSM_mute envTrue 0 "[c]" (none, none) (qstOf freshIssue) [0]).1.db.issues.map
        (fun i => (i.is_muted, i.unmute_on_volume_based_conditions))) = [(true, "[c]")]
    ∧ (IQSM_mute envTrue 0 "[c]" (none, none) (qstOf freshIssue) [0]).1.registry 0
      = [mkListener 0 vbc0] := by
  refine ⟨by decide, by decide, rfl⟩

/-- C7: every query through the patched cursor runs its body on a connection
whose progress handler is the `check_time` closure started at the query's
start time with a 5-second budget, and that handler requests abort (returns 1)
exactly when the clock reading exceeds the start time by more than 5
seconds. -/
theorem C7_execute_runs_under_five_second_limit {α : Type} (conn : Conn) (start t : Time)
    (body : Conn → Except Unit α) :
    (SQLiteCursorWrapper_execute conn start body).1
      = body (set_progress_handler conn (some (check_time start 5)))
    ∧ (SQLiteCursorWrapper_executemany conn start body).1
      = body (set_progress_handler conn (some (check_time start 5)))
    ∧ (check_time start 5 t = some 1 ↔ start + 5 < t) := by
  refine ⟨?_, ?_, ?_⟩
  · rcases hb : body (set_progress_handler conn (some (check_time start 5))) with a | e <;>
      simp [SQLiteCursorWrapper_execute, limit_runtime, hb]
  · rcases hb : body (set_progress_handler conn (some (check_time start 5))) with a | e <;>
      simp [SQLiteCursorWrapper_executemany, limit_runtime, hb]
  · unfold check_time
    constructor
    · intro h
      by_contra hlt
      simp [hlt] at h
    · intro h
      simp [h]

/-- C8 (counterexample): a call whose underlying execution raises is claimed
to leave the progress handler cleared; but `limit_runtime` has no try/finally
around its yield, so after a raising execution the handler is still
installed. -/
theorem C8_raise_leaves_handler_installed :
    ((SQLiteCursorWrapper_execute { progressHandler := none } 0
      (fun _ => (Except.error () : Except Unit Unit))).2.progressHandler).isSome = true := by
  rfl

/-- C8 (amended): `execute` and `executemany` clear the progress handler when
the underlying execution returns normally; when it raises, the handler
installed for that query (the 5-second `check_time` closure) remains on the
connection. -/
theorem C8_handler_cleared_only_on_normal_return {α : Type} (conn : Conn) (start : Time)
    (body : Conn → Except Unit α) :
    (∀ a, body (set_progress_handler conn (some (check_time start 5))) = Except.ok a →
      (SQLiteCursorWrapper_execute conn start body).2.progressHandler = none
      ∧ (SQLiteCursorWrapper_executemany conn start body).2.progressHandler = none)
    ∧ (∀ e, body (set_progress_handler conn (some (check_time start 5))) = Except.error e →
      (SQLiteCursorWrapper_execute conn start body).2.progressHandler
        = some (check_time start 5)
      ∧ (SQLiteCursorWrapper_executemany conn start body).2.progressHandler
        = some (check_time start 5)) := by
  constructor
  · intro a h
    constructor <;>
      simp [SQLiteCursorWrapper_execute, SQLiteCursorWrapper_executemany, limit_runtime, h] <;>
      simp [set_progress_handler]
  · intro e h
    constructor <;>
      simp [SQLiteCursorWrapper_execute, SQLiteCursorWrapper_executemany, limit_runtime, h] <;>
      simp [set_progress_handler]

/-- C8 (witness for the amended theorem): at a concrete connection, a normally
returning body leaves the handler cleared and a raising body leaves the
5-second handler installed. -/
theorem C8_handler_cleared_only_on_normal_return_witness :
    (SQLiteCursorWrapper_execute { progressHandler := none } 0
      (fun _ => (Except.ok () : Except Unit Unit))).2.progressHandler = none
    ∧ (SQLiteCursorWrapper_execute { progressHandler := none } 0
      (fun _ => (Except.error () : Except Unit Unit))).2.progressHandler
        = some (check_time 0 5) := by
  exact ⟨((C8_handler_cleared_only_on_normal_return { progressHandler := none } 0
      (fun _ => Except.ok ())).1 () rfl).1,
    ((C8_handler_cleared_only_on_normal_return { progressHandler := none } 0
      (fun _ => Except.error ())).2 () rfl).1⟩

/-- C9: `clean_email` raises a ValidationError exactly when the form was built
with `user_must_exist` and no user carries the submitted address; in every
other case it returns the address unchanged. -/
theorem C9_clean_email_validation (user_must_exist : Bool) (user_emails : List String)
    (email : String) :
    (ProjectMemberInviteForm_clean_email user_must_exist user_emails email = Except.error ()
      ↔ (user_must_exist = true ∧ email ∉ user_emails))
    ∧ (¬ (user_must_exist = true ∧ email ∉ user_emails) →
      ProjectMemberInviteForm_clean_email user_must_exist user_emails email
        = Except.ok email) := by
  unfold ProjectMemberInviteForm_clean_email
  by_cases h : user_must_exist = true ∧ email ∉ user_emails
  · simp [h]
  · simp [h]

/-- C9 (witness): with no required existing user, the address is returned
unchanged. -/
theorem C9_clean_email_validation_witness :
    ProjectMemberInviteForm_clean_email false [] "a@b.example" = Except.ok "a@b.example" := by
  exact (C9_clean_email_validation false [] "a@b.example").2 (by simp)

/-- C10: bound to an instance with a primary key, `ProjectForm` drops the team
field and keeps the dsn field disabled with the project's DSN as initial
value; creating, it drops the dsn field and points the team field's queryset
at the provided `team_qs`. -/
theorem C10_project_form_modes (reverseUrl : Nat → String) (team_qs : Option (List Nat))
    (inst : Option ProjectInstance) :
    (∀ i pkv, inst = some i → i.pk = some pkv →
      (ProjectForm_init reverseUrl team_qs inst).has_team_field = false
      ∧ (ProjectForm_init reverseUrl team_qs inst).has_dsn_field = true
      ∧ (ProjectForm_init reverseUrl team_qs inst).dsn_disabled = true
      ∧ (ProjectForm_init reverseUrl team_qs inst).dsn_initial = some i.dsn)
    ∧ ((inst = none ∨ ∃ i, inst = some i ∧ i.pk = none) →
      (ProjectForm_init reverseUrl team_qs inst).has_dsn_field = false
      ∧ (ProjectForm_init reverseUrl team_qs inst).has_team_field = true
      ∧ (ProjectForm_init reverseUrl team_qs inst).team_queryset = team_qs) := by
  constructor
  · intro i pkv hinst hpk
    subst hinst
    simp [ProjectForm_init, hpk, ProjectForm_base]
  · intro h
    rcases h with h | ⟨i, hinst, hpk⟩
    · subst h
      simp [ProjectForm_init, ProjectForm_base]
    · subst hinst
      simp [ProjectForm_init, hpk, ProjectForm_base]

/-- C10 (witness): a concrete saved instance yields the editing
configuration, and a fresh form yields the creation configuration. -/
theorem C10_project_form_modes_witness :
    ((ProjectForm_init (fun _ => "u") (some [7]) (some { pk := some 3, dsn := "d" })).has_team_field
        = false
      ∧ (ProjectForm_init (fun _ => "u") (some [7])
          (some { pk := some 3, dsn := "d" })).has_dsn_field = true
      ∧ (ProjectForm_init (fun _ => "u") (some [7])
          (some { pk := some 3, dsn := "d" })).dsn_disabled = true
      ∧ (ProjectForm_init (fun _ => "u") (some [7])
          (some { pk := some 3, dsn := "d" })).dsn_initial = some "d")
    ∧ ((ProjectForm_init (fun _ => "u") (some [7]) none).has_dsn_field = false
      ∧ (ProjectForm_init (fun _ => "u") (some [7]) none).has_team_field = true
      ∧ (ProjectForm_init (fun _ => "u") (some [7]) none).team_queryset = some [7]) := by
  exact ⟨(C10_project_form_modes (fun _ => "u") (some [7])
      (some { pk := some 3, dsn := "d" })).1 { pk := some 3, dsn := "d" } 3 rfl rfl,
    (C10_project_form_modes (fun _ => "u") (some [7]) none).2 (Or.inl rfl)⟩


/-- Unmute always leaves the issue unmuted (it either resets the flag or the
flag was already false). -/
theorem ISM_unmute_is_muted (b : Bool) (st : State) :
    (ISM_unmute b st).issue.is_muted = false := by
  unfold ISM_unmute
  by_cases h : st.issue.is_muted = true <;> simp [h]

/-- Unmute does not touch the issue's id. -/
theorem ISM_unmute_id (b : Bool) (st : State) :
    (ISM_unmute b st).issue.id = st.issue.id := by
  unfold ISM_unmute
  by_cases h : st.issue.is_muted = true <;> simp [h]

/-- Unmute on an already-unmuted issue changes nothing at all. -/
theorem ISM_unmute_not_muted (b : Bool) (st : State) (h : st.issue.is_muted = false) :
    ISM_unmute b st = st := by
  unfold ISM_unmute
  simp [h]

/-- Registry lookup after updating the same entry. -/
theorem updateReg_self (reg : Registry) (i : Nat) (f : List Listener → List Listener) :
    updateReg reg i f i = f (reg i) := by
  simp [updateReg]

/-- Registry lookup after updating a different entry. -/
theorem updateReg_other (reg : Registry) (i : Nat) (f : List Listener → List Listener)
    (j : Nat) (h : j ≠ i) : updateReg reg i f j = reg j := by
  simp [updateReg, h]

/-- When no condition is initially true, the handler loop registers exactly
one listener per condition, in order, and does not raise. -/
theorem addHandlers_all_false (env : Env) (iid : Nat) (now : DateTime)
    (l : List VolumeBasedCondition)
    (h : ∀ vbc ∈ l, env.evalCond iid vbc now = false) :
    addHandlers env iid now l = (l.map (mkListener iid), none) := by
  induction l with
  | nil => rfl
  | cons vbc rest ih =>
    have h1 : env.evalCond iid vbc now = false := h vbc (List.mem_cons_self vbc rest)
    have h2 := ih (fun v hv => h v (List.mem_cons_of_mem vbc hv))
    simp [addHandlers, h1, h2]

/-- C3: on an unresolved issue whose supplied conditions are not already true,
`mute` succeeds, sets `is_muted`, stores the condition string verbatim,
appends to the issue's registry entry exactly one UNMUTE_PURPOSE listener per
condition (period as period_name, nr_of_periods as nr_of_periods, volume as
the gte-threshold, the handler unmuting this very issue), touches no other
issue's registry entry, and sets `unmute_after` to the current time advanced
by the given number of periods exactly when the tuple supplies both a count
and a period name, leaving it untouched otherwise. -/
theorem C3_mute_functional (env : Env) (now : DateTime) (conds : String) (st : State)
    (tn : Option Int) (tp : Option String)
    (h1 : st.issue.is_resolved = false)
    (h2 : ∀ vbc ∈ env.parseVBCs conds, env.evalCond st.issue.id vbc now = false)
    (h3 : ∀ p, tp = some p → (dateutil_kwargs_map p).isSome = true) :
    (ISM_mute env now conds (tn, tp) st).2 = none
    ∧ (ISM_mute env now conds (tn, tp) st).1.issue.is_muted = true
    ∧ (ISM_mute env now conds (tn, tp) st).1.issue.unmute_on_volume_based_conditions = conds
    ∧ (ISM_mute env now conds (tn, tp) st).1.registry st.issue.id
        = st.registry st.issue.id ++ (env.parseVBCs conds).map (mkListener st.issue.id)
    ∧ (∀ j, j ≠ st.issue.id → (ISM_mute env now conds (tn, tp) st).1.registry j
        = st.registry j)
    ∧ (∀ n p, tn = some n → tp = some p →
        (ISM_mute env now conds (tn, tp) st).1.issue.unmute_after
          = add_periods_to_datetime env now n p)
    ∧ ((tn = none ∨ tp = none) →
        (ISM_mute env now conds (tn, tp) st).1.issue.unmute_after = st.issue.unmute_after) := by
  have hr : addHandlers env st.issue.id now (env.parseVBCs conds)
      = ((env.parseVBCs conds).map (mkListener st.issue.id), none) :=
    addHandlers_all_false env st.issue.id now (env.parseVBCs conds) h2
  rcases tn with _ | n <;> rcases tp with _ | p
  · simp only [ISM_mute, ISM_set_unmute_handlers, h1, Bool.false_eq_true, if_false, hr]
    refine ⟨by trivial, by trivial, by trivial, updateReg_self _ _ _,
      fun j hj => updateReg_other _ _ _ j hj, ?_, ?_⟩
    · intro n p hn hp
      exact absurd hn (by simp)
    · intro _
      trivial
  · simp only [ISM_mute, ISM_set_unmute_handlers, h1, Bool.false_eq_true, if_false, hr]
    refine ⟨by trivial, by trivial, by trivial, updateReg_self _ _ _,
      fun j hj => updateReg_other _ _ _ j hj, ?_, ?_⟩
    · intro n q hn hp
      exact absurd hn (by simp)
    · intro _
      trivial
  · simp only [ISM_mute, ISM_set_unmute_handlers, h1, Bool.false_eq_true, if_false, hr]
    refine ⟨by trivial, by trivial, by trivial, updateReg_self _ _ _,
      fun j hj => updateReg_other _ _ _ j hj, ?_, ?_⟩
    · intro m p hn hp
      exact absurd hp (by simp)
    · intro _
      trivial
  · have hk := h3 p rfl
    rcases hkk : dateutil_kwargs_map p with _ | k
    · rw [hkk] at hk
      simp at hk
    · simp only [ISM_mute, ISM_set_unmute_handlers, h1, Bool.false_eq_true, if_false, hr,
        add_periods_to_datetime, hkk, Option.map_some']
      refine ⟨by trivial, by trivial, by trivial, updateReg_self _ _ _,
        fun j hj => updateReg_other _ _ _ j hj, ?_, ?_⟩
      · intro m q hn hp
        cases hn
        cases hp
        simp [add_periods_to_datetime, hkk]
      · intro hcontra
        rcases hcontra with hc | hc <;> simp at hc

/-- C3 (witness): a concrete successful mute of a fresh issue with one
condition and an unmute-after of 3 days. -/
theorem C3_mute_functional_witness :
    (ISM_mute envFalse 0 "[c]" (some 3, some "day") (stOf freshIssue)).2 = none
    ∧ (ISM_mute envFalse 0 "[c]" (some 3, some "day")
        (stOf freshIssue)).1.issue.is_muted = true
    ∧ (ISM_mute envFalse 0 "[c]" (some 3, some "day")
        (stOf freshIssue)).1.issue.unmute_on_volume_based_conditions = "[c]"
    ∧ (ISM_mute envFalse 0 "[c]" (some 3, some "day")
        (stOf freshIssue)).1.registry (stOf freshIssue).issue.id
        = (stOf freshIssue).registry (stOf freshIssue).issue.id
          ++ (envFalse.parseVBCs "[c]").map (mkListener (stOf freshIssue).issue.id)
    ∧ (∀ j, j ≠ (stOf freshIssue).issue.id →
        (ISM_mute envFalse 0 "[c]" (some 3, some "day") (stOf freshIssue)).1.registry j
          = (stOf freshIssue).registry j)
    ∧ (∀ n p, (some (3 : Int)) = some n → (some "day") = some p →
        (ISM_mute envFalse 0 "[c]" (some 3, some "day")
          (stOf freshIssue)).1.issue.unmute_after = add_periods_to_datetime envFalse 0 n p)
    ∧ (((some (3 : Int)) = none ∨ (some "day") = none) →
        (ISM_mute envFalse 0 "[c]" (some 3, some "day")
          (stOf freshIssue)).1.issue.unmute_after = (stOf freshIssue).issue.unmute_after) :=
  C3_mute_functional envFalse 0 "[c]" (stOf freshIssue) (some 3) (some "day") rfl
    (fun vbc _ => rfl) (fun p hp => by cases hp; rfl)

/-- C4 (amended): when `mute` raises `IncongruentStateException` — the single
issue, or some issue in the queryset, is resolved — neither variant has
touched the issue fields, the registry or the alerts: the failed call returns
the state unchanged.  (When instead a supplied condition is already true, the
raise is not atomic: see the counterexample theorem for C4.) -/
theorem C4_incongruent_mute_is_atomic (env : Env) (now : DateTime) (conds : String)
    (tup : Option Int × Option String) (st : State) (qst : QState) (qs : Queryset)
    (h1 : st.issue.is_resolved = true)
    (h2 : ∃ i ∈ qs_rows qst.db qs, i.is_resolved = true) :
    ISM_mute env now conds tup st = (st, some Err.incongruentState)
    ∧ IQSM_mute env now conds tup qst qs = (qst, some Err.incongruentState) := by
  constructor
  · unfold ISM_mute
    simp [h1]
  · unfold IQSM_mute
    have hany : (qs_rows qst.db qs).any (fun i => i.is_resolved) = true := by
      rcases h2 with ⟨i, hi, hres⟩
      exact List.any_eq_true.mpr ⟨i, hi, by simp [hres]⟩
    simp [hany]

/-- C4 (witness for the amended theorem): muting a concrete resolved issue
raises and returns both states unchanged. -/
theorem C4_incongruent_mute_is_atomic_witness :
    ISM_mute envFalse 0 "[]" (none, none) (stOf resolvedIssue)
      = (stOf resolvedIssue, some Err.incongruentState)
    ∧ IQSM_mute envFalse 0 "[]" (none, none) (qstOf resolvedIssue) [0]
      = (qstOf resolvedIssue, some Err.incongruentState) :=
  C4_incongruent_mute_is_atomic envFalse 0 "[]" (none, none) (stOf resolvedIssue)
    (qstOf resolvedIssue) [0] rfl ⟨resolvedIssue, by decide, rfl⟩


/-- Replacing, in a list of issues, every row carrying the id found by a
search with a new issue of that same id makes a subsequent search find the
new issue. -/
theorem find_after_replace (l : List Issue) (iid : Nat) (row newi : Issue)
    (hfind : l.find? (fun i => i.id = iid) = some row) (hid : newi.id = iid) :
    (l.map (fun i => if i.id = newi.id then newi else i)).find? (fun i => i.id = iid)
      = some newi := by
  induction l with
  | nil => simp at hfind
  | cons a l ih =>
    simp only [List.map_cons]
    by_cases ha : a.id = iid
    · have hrepl : (if a.id = newi.id then newi else a) = newi := by
        rw [hid]
        simp [ha]
      rw [hrepl]
      rw [List.find?_cons_of_pos]
      simp [hid]
    · have hne : a.id ≠ newi.id := by
        rw [hid]
        exact ha
      rw [if_neg hne]
      rw [List.find?_cons_of_neg _ (by simp [ha])]
      have hf2 : l.find? (fun i => i.id = iid) = some row := by
        rw [List.find?_cons_of_neg _ (by simp [ha])] at hfind
        exact hfind
      exact ih hf2

/-- C6: `unmute` on an issue that is not muted is a complete no-op — fields,
registry and alerts are all untouched — and therefore running the
unmute-condition handler for the same issue a second time (as when several
conditions become true simultaneously) sends no further alert: the alerts
after two handler runs equal the alerts after one. -/
theorem C6_unmute_idempotent (b : Bool) (st : State) (iid : Nat) (qst : QState)
    (h : st.issue.is_muted = false) :
    ISM_unmute b st = st
    ∧ (unmute_issue_handler iid (unmute_issue_handler iid qst).1).1.alerts
        = (unmute_issue_handler iid qst).1.alerts := by
  refine ⟨ISM_unmute_not_muted b st h, ?_⟩
  unfold unmute_issue_handler
  cases hfind : qst.db.issues.find? (fun i => i.id = iid) with
  | none =>
    simp [hfind]
  | some row =>
    have hrow : row.id = iid := by
      have := List.find?_some hfind
      simpa using this
    have hid2 : (ISM_unmute true { issue := row, registry := qst.registry, alerts := qst.alerts }).issue.id = iid := by
      rw [ISM_unmute_id]
      exact hrow
    have hm : (ISM_unmute true { issue := row, registry := qst.registry, alerts := qst.alerts }).issue.is_muted = false :=
      ISM_unmute_is_muted true _
    simp only [hfind]
    rw [find_after_replace qst.db.issues iid row _ hfind hid2]
    simp only
    rw [ISM_unmute_not_muted true _ hm]

/-- C6 (witness): a concrete unmuted issue is untouched, and running the
handler twice on the muted one-row database sends no second alert. -/
theorem C6_unmute_idempotent_witness :
    ISM_unmute false (stOf freshIssue) = stOf freshIssue
    ∧ (unmute_issue_handler 1 (unmute_issue_handler 1 qstMuted).1).1.alerts
        = (unmute_issue_handler 1 qstMuted).1.alerts :=
  C6_unmute_idempotent false (stOf freshIssue) 1 qstMuted rfl

/-- An unmuted issue satisfies the C5 predicate. -/
theorem ok_of_not_muted (i : Issue) (h : i.is_muted = false) : issueStateOk i = true := by
  simp [issueStateOk, h]

/-- An unresolved issue satisfies the C5 predicate. -/
theorem ok_of_not_resolved (i : Issue) (h : i.is_resolved = false) : issueStateOk i = true := by
  simp [issueStateOk, h]

/-- Each row after a bulk update comes from a row of the database, updated
when selected. -/
theorem mem_qs_update {db : DB} {qs : Queryset} {f : Issue → Issue} {i : Issue}
    (h : i ∈ (qs_update db qs f).issues) :
    ∃ j ∈ db.issues, i = if j.id ∈ qs then f j else j := by
  rcases List.mem_map.mp h with ⟨j, hj, hje⟩
  exact ⟨j, hj, hje.symm⟩

/-- A row not selected by the queryset is an untouched original row, when the
update does not change ids. -/
theorem mem_qs_update_notin {db : DB} {qs : Queryset} {f : Issue → Issue} {i : Issue}
    (h : i ∈ (qs_update db qs f).issues) (hid : i.id ∉ qs)
    (hpres : ∀ j, (f j).id = j.id) : i ∈ db.issues := by
  rcases mem_qs_update h with ⟨j, hj, hje⟩
  by_cases hjin : j.id ∈ qs
  · exfalso
    apply hid
    rw [hje, if_pos hjin, hpres j]
    exact hjin
  · rw [hje, if_neg hjin]
    exact hj

/-- A fold whose step never writes the database leaves it unchanged. -/
theorem foldl_preserves_db (step : QState → Issue → QState)
    (hstep : ∀ a r, (step a r).db = a.db) :
    ∀ (rows : List Issue) (acc : QState), (rows.foldl step acc).db = acc.db := by
  intro rows
  induction rows with
  | nil =>
    intro acc
    rfl
  | cons r rows ih =>
    intro acc
    rw [List.foldl_cons, ih, hstep]

/-- The database after a queryset unmute is exactly the bulk update of the
three mute fields (the per-row loop does not save). -/
theorem IQSM_unmute_db (b : Bool) (qst : QState) (qs : Queryset) :
    (IQSM_unmute b qst qs).db = qs_update qst.db qs (fun i => { i with is_muted := false, unmute_on_volume_based_conditions := "[]", unmute_after := none }) := by
  have h := foldl_preserves_db
    (fun acc row => { db := acc.db, registry := (ISM_unmute b { issue := row, registry := acc.registry, alerts := acc.alerts }).registry, alerts := (ISM_unmute b { issue := row, registry := acc.registry, alerts := acc.alerts }).alerts })
    (fun a r => rfl)
  exact h _ _

/-- A row of the database left by `_resolve_at` that the queryset does not
select is an untouched original row. -/
theorem IQSM_resolve_at_notin (qst : QState) (qs : Queryset) (v : String) {i : Issue}
    (h : i ∈ (IQSM_resolve_at qst qs v).db.issues) (hid : i.id ∉ qs) :
    i ∈ qst.db.issues := by
  simp only [IQSM_resolve_at] at h
  have h2 := mem_qs_update_notin h hid (fun j => rfl)
  have h1 := mem_qs_update_notin h2
    (fun hmem => hid (List.mem_of_mem_filter hmem)) (fun j => rfl)
  exact mem_qs_update_notin h1
    (fun hmem => hid (List.mem_of_mem_filter hmem)) (fun j => rfl)

/-- After a queryset unmute, every row satisfies the C5 predicate, provided
rows that were not selected trace back to predicate-satisfying originals. -/
theorem IQSM_unmute_after_ok (b : Bool) (qstX : QState) (qs : Queryset) (qst : QState)
    (horig : ∀ i ∈ qst.db.issues, issueStateOk i = true)
    (hnotin : ∀ i, i ∈ qstX.db.issues → i.id ∉ qs → i ∈ qst.db.issues) :
    ∀ i ∈ (IQSM_unmute b qstX qs).db.issues, issueStateOk i = true := by
  intro i hi
  rw [IQSM_unmute_db] at hi
  rcases mem_qs_update hi with ⟨j, hj, hje⟩
  by_cases hjin : j.id ∈ qs
  · rw [hje, if_pos hjin]
    exact ok_of_not_muted _ rfl
  · rw [hje, if_neg hjin]
    exact horig j (hnotin j hj hjin)

/-- A single-issue mute preserves the C5 predicate: it refuses resolved
issues, and on an unresolved issue every outcome (success or raise) leaves
the issue unresolved. -/
theorem ISM_mute_ok (env : Env) (now : DateTime) (conds : String)
    (tup : Option Int × Option String) (st : State)
    (h : issueStateOk st.issue = true) :
    issueStateOk (ISM_mute env now conds tup st).1.issue = true := by
  unfold ISM_mute
  by_cases hres : st.issue.is_resolved = true
  · simp only [hres, if_true]
    exact h
  · have hres2 : st.issue.is_resolved = false := by simpa using hres
    simp only [hres2, Bool.false_eq_true, if_false]
    split
    · exact ok_of_not_resolved _ rfl
    · split
      · split
        · exact ok_of_not_resolved _ rfl
        · exact ok_of_not_resolved _ rfl
      · exact ok_of_not_resolved _ rfl

/-- Every single-issue operation preserves the C5 predicate. -/
theorem sop_preserves_ok (env : Env) (now : DateTime) (op : SOp) (st : State)
    (h : issueStateOk st.issue = true) :
    issueStateOk (applySOp env now op st).1.issue = true := by
  cases op with
  | resolve =>
    exact ok_of_not_muted _ (ISM_unmute_is_muted false _)
  | resolve_by_latest v =>
    exact ok_of_not_muted _ (ISM_unmute_is_muted false _)
  | resolve_by_release v =>
    exact ok_of_not_muted _ (ISM_unmute_is_muted false _)
  | resolve_by_next =>
    exact ok_of_not_muted _ (ISM_unmute_is_muted false _)
  | reopen =>
    exact ok_of_not_muted _ (ISM_unmute_is_muted false _)
  | mute c t =>
    exact ISM_mute_ok env now c t st h
  | unmute b =>
    exact ok_of_not_muted _ (ISM_unmute_is_muted b _)

/-- A queryset mute preserves the C5 predicate on every row, whatever the
outcome: it refuses querysets containing a resolved issue, and otherwise only
mutes rows it has just checked to be unresolved. -/
theorem IQSM_mute_ok (env : Env) (now : DateTime) (conds : String)
    (tup : Option Int × Option String) (qst : QState) (qs : Queryset)
    (h : ∀ i ∈ qst.db.issues, issueStateOk i = true) :
    ∀ i ∈ (IQSM_mute env now conds tup qst qs).1.db.issues, issueStateOk i = true := by
  by_cases hany : (qs_rows qst.db qs).any (fun i => i.is_resolved) = true
  · unfold IQSM_mute
    simp only [hany, if_true]
    exact h
  · have hany2 : (qs_rows qst.db qs).any (fun i => i.is_resolved) = false := by
      simpa using hany
    have hnores : ∀ j ∈ qst.db.issues, j.id ∈ qs → j.is_resolved = false := by
      intro j hj hjin
      by_contra hc
      have hc2 : j.is_resolved = true := by simpa using hc
      have hmem : j ∈ qs_rows qst.db qs :=
        List.mem_filter.mpr ⟨hj, by simp [hjin]⟩
      have := List.any_eq_true.mpr ⟨j, hmem, hc2⟩
      rw [hany2] at this
      cases this
    have hdb1 : ∀ i ∈ (qs_update qst.db qs (fun i => { i with is_muted := true, unmute_on_volume_based_conditions := conds })).issues, issueStateOk i = true := by
      intro i hi
      rcases mem_qs_update hi with ⟨j, hj, hje⟩
      by_cases hjin : j.id ∈ qs
      · rw [hje, if_pos hjin]
        exact ok_of_not_resolved _ (hnores j hj hjin)
      · rw [hje, if_neg hjin]
        exact h j hj
    intro i hi
    unfold IQSM_mute at hi
    simp only [hany2, Bool.false_eq_true, if_false] at hi
    split at hi
    · exact hdb1 i hi
    · split at hi
      · split at hi
        · rcases mem_qs_update hi with ⟨j, hj, hje⟩
          rw [hje]
          by_cases hjin : j.id ∈ qs
          · rw [if_pos hjin]
            exact hdb1 j hj
          · rw [if_neg hjin]
            exact hdb1 j hj
        · exact hdb1 i hi
      · exact hdb1 i hi

/-- Every queryset operation preserves the C5 predicate on every row of the
database. -/
theorem qop_preserves_ok (env : Env) (now : DateTime) (qop : QOp) (qst : QState)
    (qs : Queryset) (h : ∀ i ∈ qst.db.issues, issueStateOk i = true) :
    ∀ i ∈ (applyQOp env now qop qst qs).1.db.issues, issueStateOk i = true := by
  cases qop with
  | resolve =>
    exact IQSM_unmute_after_ok false _ qs qst h
      (fun i hi hid => IQSM_resolve_at_notin qst qs "" hi hid)
  | resolve_by_latest =>
    exact h
  | resolve_by_release v =>
    exact IQSM_unmute_after_ok false _ qs qst h
      (fun i hi hid => IQSM_resolve_at_notin qst qs v hi hid)
  | resolve_by_next =>
    exact IQSM_unmute_after_ok false _ qs qst h
      (fun i hi hid => mem_qs_update_notin hi hid (fun j => rfl))
  | reopen =>
    exact h
  | mute c t =>
    exact IQSM_mute_ok env now c t qst qs h
  | unmute b =>
    exact IQSM_unmute_after_ok b qst qs qst h (fun i hi _ => hi)

/-- C5: no operation of either manager produces an issue that is both
resolved and muted: every issue satisfying the predicate before an operation
(of the single-issue manager, and every database row before a queryset
operation) still satisfies it afterwards, for every outcome of the
operation. -/
theorem C5_never_resolved_and_muted (env : Env) (now : DateTime) (op : SOp) (qop : QOp)
    (st : State) (qst : QState) (qs : Queryset)
    (h1 : issueStateOk st.issue = true)
    (h2 : ∀ i ∈ qst.db.issues, issueStateOk i = true) :
    issueStateOk (applySOp env now op st).1.issue = true
    ∧ ∀ i ∈ (applyQOp env now qop qst qs).1.db.issues, issueStateOk i = true :=
  ⟨sop_preserves_ok env now op st h1, qop_preserves_ok env now qop qst qs h2⟩

/-- C5 (witness): resolving the concrete muted issue, singly and as a
queryset, keeps the predicate. -/
theorem C5_never_resolved_and_muted_witness :
    issueStateOk (applySOp envFalse 0 SOp.resolve (stOf mutedIssue)).1.issue = true
    ∧ ∀ i ∈ (applyQOp envFalse 0 QOp.resolve qstMuted [1]).1.db.issues,
        issueStateOk i = true :=
  C5_never_resolved_and_muted envFalse 0 SOp.resolve QOp.resolve (stOf mutedIssue)
    qstMuted [1] rfl (by decide)
